import Mathlib

/-!
Shallow embedding of the ingestion engine of `solana-data-aggregator`
(`src/fetcher.rs`).  The external collaborators (RPC provider, pubsub
stream, SurrealDB store) are modelled as an oracle environment `Env`;
the core control flow of `TransactionFetcher::fetch_range` and
`TransactionFetcher::run` is translated directly.
-/

namespace Aggregator

/-- Opaque stand-in for the provider's transaction detail payload
(`EncodedConfirmedTransactionWithStatusMeta` in the source); the core
treats it as a verbatim blob. -/
structure EncodedTx where
  blob : Nat
deriving Repr, DecidableEq

/-- The block summary returned by `get_block_with_config`
(`UiConfirmedBlock` fields used by the source: `blockhash`,
`block_time`, `signatures`). -/
structure UiConfirmedBlock where
  blockhash : String
  block_time : Option Int
  signatures : Option (List String)
deriving Repr, DecidableEq

/-- Record persisted by the fetcher (struct `Transaction` in
`src/fetcher.rs`). -/
structure Transaction where
  signature : String
  slot : Nat
  block_hash : String
  timestamp : Int
  data : EncodedTx
deriving Repr, DecidableEq

/-- Database-layer error (`surrealdb::Error`), opaque to the core. -/
structure DbError where
  msg : String
deriving Repr, DecidableEq

/-- Error type `TransactionFetcherError` from the source.  Payloads
are opaque. -/
inductive TransactionFetcherError where
  | rpcClient
  | pubsubClient
  | surrealdb
  | fetchFailed
deriving Repr, DecidableEq

/-- Oracle environment standing for the external collaborators:
`blockFetch slot` is the outcome of `get_block_with_config slot`
(`none` = provider error), `sigParse sig` is whether
`Signature::from_str` succeeds, `txFetch sig` the outcome of
`get_transaction_with_config` (`none` = provider error), and
`insertOk sig` whether `db.create("transactions")` succeeds for the
record carrying that signature. -/
structure Env where
  blockFetch : Nat → Option UiConfirmedBlock
  sigParse : String → Bool
  txFetch : String → Option EncodedTx
  insertOk : String → Bool

/-- Outcome of one per-signature fetch-and-persist unit, tagged with
the signature it handled. Each constructor is one of the unit's exit
points in `fetch_range`. -/
inductive UnitOutcome where
  | invalidSignature (sig : String)
  | fetchFailed (sig : String)
  | insertFailed (t : Transaction)
  | stored (t : Transaction)
deriving Repr, DecidableEq

/-- The signature a unit handled. -/
def UnitOutcome.sig : UnitOutcome → String
  | .invalidSignature s => s
  | .fetchFailed s => s
  | .insertFailed t => t.signature
  | .stored t => t.signature

/-- Whether the unit issued a `get_transaction_with_config` request:
every exit point except signature-parse failure lies past that call. -/
def UnitOutcome.detailRequested : UnitOutcome → Bool
  | .invalidSignature _ => false
  | _ => true

/-- The record the unit successfully persisted, if any. -/
def UnitOutcome.insertedTx : UnitOutcome → Option Transaction
  | .stored t => some t
  | _ => none

/-- One per-signature unit of work: the async block pushed onto
`fetch_futures` in `fetch_range` (parse, fetch detail, build the
record, insert; each failure logged and swallowed). -/
def processSignature (env : Env) (slot : Nat) (blockHash : String)
    (ts : Int) (sig : String) : UnitOutcome :=
  if env.sigParse sig then
    match env.txFetch sig with
    | some d =>
      let t : Transaction :=
        { signature := sig, slot := slot, block_hash := blockHash,
          timestamp := ts, data := d }
      if env.insertOk sig then .stored t else .insertFailed t
    | none => .fetchFailed sig
  else .invalidSignature sig

/-- Processing of a single slot inside the `for slot in from..=to`
loop of `fetch_range`: fetch the block; on failure (or absent
signature list) nothing happens for the slot; on success take at most
`txLimit` signatures and run a unit per signature
(`block.block_time.unwrap_or_default()` is the timestamp). -/
def processSlot (env : Env) (txLimit : Nat) (slot : Nat) :
    List UnitOutcome :=
  match env.blockFetch slot with
  | some block =>
    match block.signatures with
    | some sigs =>
      (sigs.take txLimit).map
        (processSignature env slot block.blockhash
          (block.block_time.getD 0))
    | none => []
  | none => []

/-- The signatures retained by a slot's processing (the `take
tx_limit` truncation), read off the outcome list. -/
def retainedSignatures (env : Env) (txLimit slot : Nat) : List String :=
  (processSlot env txLimit slot).map UnitOutcome.sig

/-- The signatures for which a transaction-detail request was actually
issued during a slot's processing. -/
def slotDetailRequests (env : Env) (txLimit slot : Nat) : List String :=
  (processSlot env txLimit slot).filterMap fun o =>
    if o.detailRequested then some o.sig else none

/-- The records persisted during a slot's processing. -/
def slotInserts (env : Env) (txLimit slot : Nat) : List Transaction :=
  (processSlot env txLimit slot).filterMap UnitOutcome.insertedTx

/-- Model of `TransactionFetcher::fetch_range`: the slots
`from_slot..=to_slot` in increasing order, each with its unit
outcomes (empty when `from_slot > to_slot`). -/
def fetch_range (env : Env) (txLimit from_slot to_slot : Nat) :
    List (Nat × List UnitOutcome) :=
  (List.range' from_slot (to_slot + 1 - from_slot)).map fun slot =>
    (slot, processSlot env txLimit slot)

/-- One iteration of the streaming loop of `TransactionFetcher::run`
on a notification: `adjusted_slot = slot.saturating_sub(root_lag)`;
if `adjusted_slot >= next_slot` backfill `[next_slot, adjusted_slot]`,
otherwise skip; in either case the code then executes
`next_slot = adjusted_slot + 1`.  Returns the new cursor and the
processing trace. -/
def stepNotification (env : Env) (txLimit lag next_slot raw : Nat) :
    Nat × List (Nat × List UnitOutcome) :=
  let adjusted_slot := raw - lag
  if adjusted_slot ≥ next_slot then
    (adjusted_slot + 1, fetch_range env txLimit next_slot adjusted_slot)
  else
    (adjusted_slot + 1, [])

/-- Model of `fetch_latest_slot_from_db`.  The outer
`Except` is the `db.query(...)` result; the inner one is
`res.take::<Option<SlotResult>>(0)`, whose error is discarded by
`.ok().flatten()`.  Every non-`Ok(Some _)` path logs and yields
`None`. -/
def fetch_latest_slot_from_db
    (queryResult : Except DbError (Except DbError (Option Nat))) :
    Option Nat :=
  match queryResult with
  | .ok res =>
    match res with
    | .ok (some slot) => some slot
    | .ok none => none
    | .error _ => none
  | .error _ => none

/-- How the streaming loop exited: via the shutdown branch of the
`select!` or via its `else` branch (stream exhausted with no shutdown
pending). -/
inductive RunExit where
  | cleanShutdown
  | streamExhausted
deriving Repr, DecidableEq

/-- Cursor seeding in `run`: with a recovered slot the cursor is
`slot + 1` and the stream is untouched; otherwise the first stream
item seeds the cursor at its raw value (no lag adjustment) and is
consumed; an already-exhausted stream is the `FetchFailed` early
return. -/
def seedCursor (dbSlot : Option Nat) (stream : List Nat) :
    Option (Nat × List Nat) :=
  match dbSlot with
  | some slot => some (slot + 1, stream)
  | none =>
    match stream with
    | [] => none
    | first :: rest => some (first, rest)

/-- The streaming `loop` of `run`, linearized: the stream is a list of
raw slot notifications and `shutdownAfter = some k` means the shutdown
signal wins the `select!` after `k` notifications have been handled
(`none` = no shutdown ever arrives, so the loop ends by stream
exhaustion).  Returns the final cursor, the exit kind and the
concatenated processing trace. -/
def runLoop (env : Env) (txLimit lag : Nat) :
    Nat → List Nat → Option Nat →
      Nat × RunExit × List (Nat × List UnitOutcome)
  | c, _, some 0 => (c, RunExit.cleanShutdown, [])
  | c, [], _ => (c, RunExit.streamExhausted, [])
  | c, raw :: rest, sd =>
    let step := stepNotification env txLimit lag c raw
    let next := runLoop env txLimit lag step.1 rest (sd.map (· - 1))
    (next.1, next.2.1, step.2 ++ next.2.2)

/-- Observable outcome of `TransactionFetcher::run`. -/
structure RunOutcome where
  /-- The `Result` value `run` returns to its caller. -/
  result : Except TransactionFetcherError Unit
  /-- How the streaming loop exited (`none`: never entered). -/
  exit : Option RunExit
  /-- How many times `unsubscribe()` was invoked and awaited. -/
  unsubscribeCalls : Nat
  /-- The in-memory `next_slot` cursor when the loop ended. -/
  finalCursor : Option Nat
  /-- All slot processing performed, in order. -/
  trace : List (Nat × List UnitOutcome)
deriving Repr

/-- Model of `TransactionFetcher::run`: subscribe (`subscribeOk` is whether
`root_subscribe` succeeds), recover or seed the cursor, stream until
shutdown or exhaustion, then `unsubscribe().await` once and return
`Ok(())`.  The two early returns (`root_subscribe()?` and the
`FetchFailed` seed failure) exit before the loop and never call
`unsubscribe`. -/
def run (env : Env) (txLimit lag : Nat) (subscribeOk : Bool)
    (dbResult : Except DbError (Except DbError (Option Nat)))
    (stream : List Nat) (shutdownAfter : Option Nat) : RunOutcome :=
  if subscribeOk then
    match seedCursor (fetch_latest_slot_from_db dbResult) stream with
    | some (c0, rest) =>
      let r := runLoop env txLimit lag c0 rest shutdownAfter
      { result := .ok (), exit := some r.2.1, unsubscribeCalls := 1,
        finalCursor := some r.1, trace := r.2.2 }
    | none =>
      { result := .error .fetchFailed, exit := none,
        unsubscribeCalls := 0, finalCursor := none, trace := [] }
  else
    { result := .error .pubsubClient, exit := none,
      unsubscribeCalls := 0, finalCursor := none, trace := [] }

/-- Predicate stating that `run` reaches the streaming phase (and
hence terminates through it): subscription succeeded and cursor
seeding did not hit an empty stream. -/
def reachesStreaming (subscribeOk : Bool)
    (dbResult : Except DbError (Except DbError (Option Nat)))
    (stream : List Nat) : Prop :=
  subscribeOk = true ∧
    seedCursor (fetch_latest_slot_from_db dbResult) stream ≠ none

instance (subscribeOk : Bool)
    (dbResult : Except DbError (Except DbError (Option Nat)))
    (stream : List Nat) :
    Decidable (reachesStreaming subscribeOk dbResult stream) := by
  unfold reachesStreaming
  infer_instance

/-! ## Helper lemmas -/

/-- A unit's outcome is tagged with the signature it was given. -/
theorem processSignature_sig (env : Env) (slot : Nat) (bh : String)
    (ts : Int) (sig : String) :
    (processSignature env slot bh ts sig).sig = sig := by
  cases hp : env.sigParse sig <;>
    cases ht : env.txFetch sig <;>
      cases hi : env.insertOk sig <;>
        simp [processSignature, hp, ht, hi, UnitOutcome.sig]

/-- A unit issues a detail request exactly when its signature parses. -/
theorem processSignature_detailRequested (env : Env) (slot : Nat)
    (bh : String) (ts : Int) (sig : String) :
    (processSignature env slot bh ts sig).detailRequested =
      env.sigParse sig := by
  cases hp : env.sigParse sig <;>
    cases ht : env.txFetch sig <;>
      cases hi : env.insertOk sig <;>
        simp [processSignature, hp, ht, hi, UnitOutcome.detailRequested]

/-- A unit's outcome depends only on the environment's behaviour at
its own signature. -/
theorem processSignature_congr (env1 env2 : Env) (slot : Nat)
    (bh : String) (ts : Int) (sig : String)
    (hp : env1.sigParse sig = env2.sigParse sig)
    (ht : env1.txFetch sig = env2.txFetch sig)
    (hi : env1.insertOk sig = env2.insertOk sig) :
    processSignature env1 slot bh ts sig =
      processSignature env2 slot bh ts sig := by
  unfold processSignature
  rw [hp, ht, hi]

/-- A slot's processing depends only on the environment's behaviour
at that slot's block and on the per-signature oracles. -/
theorem processSlot_congr (env1 env2 : Env) (txLimit s : Nat)
    (hb : env1.blockFetch s = env2.blockFetch s)
    (hp : env1.sigParse = env2.sigParse)
    (ht : env1.txFetch = env2.txFetch)
    (hi : env1.insertOk = env2.insertOk) :
    processSlot env1 txLimit s = processSlot env2 txLimit s := by
  unfold processSlot
  rw [hb]
  cases env2.blockFetch s with
  | none => rfl
  | some block =>
    obtain ⟨bh, bt, sigs?⟩ := block
    cases sigs? with
    | none => rfl
    | some sigs =>
      have hfun : processSignature env1 s bh (Option.getD bt 0) =
          processSignature env2 s bh (Option.getD bt 0) := by
        funext sig
        exact processSignature_congr env1 env2 s bh (Option.getD bt 0)
          sig (congrFun hp sig) (congrFun ht sig) (congrFun hi sig)
      show (sigs.take txLimit).map
          (processSignature env1 s bh (Option.getD bt 0)) =
        (sigs.take txLimit).map
          (processSignature env2 s bh (Option.getD bt 0))
      rw [hfun]

/-- Mapping the units over a signature list and reading back the
tags recovers the list. -/
theorem map_sig_processSignature (env : Env) (slot : Nat) (bh : String)
    (ts : Int) :
    ∀ l : List String,
      (l.map (processSignature env slot bh ts)).map UnitOutcome.sig = l
  | [] => rfl
  | a :: l => by
    simp only [List.map_cons, processSignature_sig,
      map_sig_processSignature env slot bh ts l]

/-- The detail requests of a mapped unit list are the signatures that
parse, in order. -/
theorem filterMap_detail_processSignature (env : Env) (slot : Nat)
    (bh : String) (ts : Int) :
    ∀ l : List String,
      (l.map (processSignature env slot bh ts)).filterMap
          (fun o => if o.detailRequested then some o.sig else none) =
        l.filter env.sigParse
  | [] => rfl
  | a :: l => by
    simp only [List.map_cons, List.filterMap_cons,
      processSignature_detailRequested, processSignature_sig,
      List.filter_cons]
    cases h : env.sigParse a <;>
      simp [h, filterMap_detail_processSignature env slot bh ts l]

/-! ## Concrete environments used by counterexamples and witnesses -/

/-- Environment in which every external call fails. -/
def cleanEnv : Env where
  blockFetch := fun _ => none
  sigParse := fun _ => false
  txFetch := fun _ => none
  insertOk := fun _ => false

/-! ## C1 -/

/-- C1 counterexample: cursor at 700, lag 100, raw slot 750, so the
adjusted slot is 650 < 700.  The code performs no backfill, but it
sets the cursor to 651 instead of leaving it at 700
(`next_slot = adjusted_slot + 1` runs unconditionally in `run`). -/
theorem c1_stale_counterexample :
    (stepNotification cleanEnv 5 100 700 750).2 = [] ∧
    (stepNotification cleanEnv 5 100 700 750).1 = 651 ∧
    (651 : Nat) ≠ 700 :=
  ⟨rfl, rfl, by decide⟩

/-- C1 (amended): for every cursor `C` and every notification whose
adjusted slot `A = S - lag` (saturating) satisfies `A < C`, no
backfill is performed (no block fetch is issued for any slot), but
the cursor is set to `A + 1` rather than left at `C`. -/
theorem c1_stale_notification (env : Env) (txLimit lag C raw : Nat)
    (h : raw - lag < C) :
    stepNotification env txLimit lag C raw = (raw - lag + 1, []) := by
  simp only [stepNotification]
  rw [if_neg (by omega)]

/-- Witness for C1 (amended) at cursor 700, lag 100, raw slot 750. -/
theorem c1_stale_notification_witness :
    stepNotification cleanEnv 5 100 700 750 = (651, []) :=
  c1_stale_notification cleanEnv 5 100 700 750 (by decide)

/-! ## C3 -/

/-- C3: the adjusted slot is `A = max(S - lag, 0)` and whenever
`A ≥ C` the loop processes exactly the closed interval `[C, A]` in
increasing order (`List.range' C (A + 1 - C)`) and sets the cursor to
`A + 1`. -/
theorem c3_backfill_range (env : Env) (txLimit lag C raw : Nat)
    (h : C ≤ raw - lag) :
    (((raw - lag : Nat) : Int) = max ((raw : Int) - (lag : Int)) 0) ∧
    stepNotification env txLimit lag C raw =
      (raw - lag + 1,
        (List.range' C (raw - lag + 1 - C)).map fun s =>
          (s, processSlot env txLimit s)) := by
  constructor
  · omega
  · simp only [stepNotification, fetch_range]
    rw [if_pos h]

/-- Witness for C3 at cursor 500, lag 100, raw slot 650. -/
theorem c3_backfill_range_witness :
    (((650 - 100 : Nat) : Int) = max ((650 : Int) - (100 : Int)) 0) ∧
    stepNotification cleanEnv 5 100 500 650 =
      (650 - 100 + 1,
        (List.range' 500 (650 - 100 + 1 - 500)).map fun s =>
          (s, processSlot cleanEnv 5 s)) :=
  c3_backfill_range cleanEnv 5 100 500 650 (by decide)

/-! ## C2 -/

/-- C2 counterexample: empty store, first raw slot 1000, lag 100.
The code seeds the cursor at the raw value 1000, not at the
lag-adjusted 900 claimed by the spec (the seeding branch of `run`
applies no `saturating_sub(root_lag)`); an immediate shutdown shows
the cursor is 1000 and nothing was backfilled. -/
theorem c2_cold_start_counterexample :
    (run cleanEnv 5 100 true (Except.ok (Except.ok none)) [1000]
        (some 0)).finalCursor = some 1000 ∧
    (1000 : Nat) ≠ 900 ∧
    (run cleanEnv 5 100 true (Except.ok (Except.ok none)) [1000]
        (some 0)).trace = [] :=
  ⟨rfl, by decide, rfl⟩

/-- C2 (amended): when the store holds no persisted slot at startup,
the cursor is seeded from the first notification at its raw
(un-adjusted) value — for a first raw slot of 1000 and lag 100 the
cursor seeds at 1000, not 900 — with that notification consumed and
no backfill performed during seeding. -/
theorem c2_cold_start_seed (env : Env) (txLimit lag first : Nat)
    (rest : List Nat) :
    seedCursor (fetch_latest_slot_from_db (Except.ok (Except.ok none)))
        (first :: rest) = some (first, rest) ∧
    (run env txLimit lag true (Except.ok (Except.ok none))
        (first :: rest) (some 0)).finalCursor = some first ∧
    (run env txLimit lag true (Except.ok (Except.ok none))
        (first :: rest) (some 0)).trace = [] := by
  refine ⟨rfl, ?_, ?_⟩ <;>
    simp [run, seedCursor, fetch_latest_slot_from_db, runLoop]

/-! ## C8 -/

/-- C8: a store whose maximum persisted slot is `M` seeds the cursor
at `M + 1` with the notification stream untouched; in the spec's
scenario (`M = 500`, first raw slot 650, lag 100) the first
notification yields cursor 551 and backfill range `[501, 550]`. -/
theorem c8_restart_recovery (env : Env) (txLimit M : Nat)
    (stream : List Nat) :
    fetch_latest_slot_from_db (Except.ok (Except.ok (some M))) =
      some M ∧
    seedCursor (some M) stream = some (M + 1, stream) ∧
    (stepNotification env txLimit 100 501 650).1 = 551 ∧
    (stepNotification env txLimit 100 501 650).2.map Prod.fst =
      List.range' 501 50 := by
  refine ⟨rfl, rfl, rfl, ?_⟩
  simp only [stepNotification, fetch_range]
  rw [if_pos (by omega)]
  simp [List.map_map, Function.comp_def]

/-! ## C10 -/

/-- C10: a store error during the startup maximum-slot query is
swallowed (`fetch_latest_slot_from_db` yields `none`), `run` behaves
exactly as it does on a successful query with an empty result — in
particular the cursor is then seeded from the first notification —
and the error is never surfaced as a fatal setup failure. -/
theorem c10_db_error_like_empty (e : DbError) (env : Env)
    (txLimit lag : Nat) (subscribeOk : Bool) (stream : List Nat)
    (sd : Option Nat) (first : Nat) (rest : List Nat) :
    fetch_latest_slot_from_db (Except.error e) = none ∧
    run env txLimit lag subscribeOk (Except.error e) stream sd =
      run env txLimit lag subscribeOk (Except.ok (Except.ok none))
        stream sd ∧
    seedCursor (fetch_latest_slot_from_db (Except.error e))
        (first :: rest) = some (first, rest) :=
  ⟨rfl, rfl, rfl⟩

/-! ## C4 -/

/-- C4 counterexample: two runs that both reach the streaming phase,
one terminated by the shutdown signal and one by stream exhaustion,
return the same result value `Ok(())` — the result does not
distinguish clean from abnormal termination. -/
theorem c4_result_counterexample :
    (run cleanEnv 5 100 true (Except.ok (Except.ok (some 10))) []
        (some 0)).exit = some RunExit.cleanShutdown ∧
    (run cleanEnv 5 100 true (Except.ok (Except.ok (some 10))) []
        none).exit = some RunExit.streamExhausted ∧
    (run cleanEnv 5 100 true (Except.ok (Except.ok (some 10))) []
        (some 0)).result =
      (run cleanEnv 5 100 true (Except.ok (Except.ok (some 10))) []
        none).result :=
  ⟨rfl, rfl, rfl⟩

/-- C4 (amended): whenever the ingestion loop terminates through the
streaming phase, it returns `Ok(())` to its caller regardless of
whether termination was clean (shutdown signal) or abnormal (stream
exhaustion); the cause is only logged, not reflected in the returned
result. -/
theorem c4_result_uniform (env : Env) (txLimit lag : Nat)
    (subscribeOk : Bool)
    (dbResult : Except DbError (Except DbError (Option Nat)))
    (stream : List Nat) (sd : Option Nat)
    (h : reachesStreaming subscribeOk dbResult stream) :
    (run env txLimit lag subscribeOk dbResult stream sd).result =
      Except.ok () := by
  obtain ⟨h1, h2⟩ := h
  subst h1
  unfold run
  cases hs : seedCursor (fetch_latest_slot_from_db dbResult) stream with
  | none => exact absurd hs h2
  | some p =>
    obtain ⟨c0, rest⟩ := p
    simp [hs]

/-- Witness for C4 (amended): a run that ends by stream exhaustion
still returns `Ok(())`. -/
theorem c4_result_uniform_witness :
    (run cleanEnv 5 100 true (Except.ok (Except.ok (some 10))) [700]
        none).result = Except.ok () :=
  c4_result_uniform cleanEnv 5 100 true (Except.ok (Except.ok (some 10)))
    [700] none (by decide)

/-! ## C9 -/

/-- C9: on every run that terminates through the streaming phase —
whether by shutdown signal or by stream exhaustion — `unsubscribe()`
is invoked exactly once, and (by the sequencing of `run`) it is
awaited before the function returns. -/
theorem c9_unsubscribe_once (env : Env) (txLimit lag : Nat)
    (subscribeOk : Bool)
    (dbResult : Except DbError (Except DbError (Option Nat)))
    (stream : List Nat) (sd : Option Nat)
    (h : reachesStreaming subscribeOk dbResult stream) :
    (run env txLimit lag subscribeOk dbResult stream sd).unsubscribeCalls
      = 1 := by
  obtain ⟨h1, h2⟩ := h
  subst h1
  unfold run
  cases hs : seedCursor (fetch_latest_slot_from_db dbResult) stream with
  | none => exact absurd hs h2
  | some p =>
    obtain ⟨c0, rest⟩ := p
    simp [hs]

/-- Witness for C9: a clean-shutdown run invokes unsubscribe once. -/
theorem c9_unsubscribe_once_witness :
    (run cleanEnv 5 100 true (Except.ok (Except.ok (some 500))) [650]
        (some 1)).unsubscribeCalls = 1 :=
  c9_unsubscribe_once cleanEnv 5 100 true
    (Except.ok (Except.ok (some 500))) [650] (some 1) (by decide)

/-! ## Concrete blocks and environments for C5, C6, C7 -/

/-- A concrete two-signature block. -/
def cBlock : UiConfirmedBlock where
  blockhash := "h"
  block_time := some 1
  signatures := some ["bad", "good"]

/-- Environment in which only the signature "bad" misbehaves. -/
def sigFailEnv : Env where
  blockFetch := fun _ => some cBlock
  sigParse := fun s => if s = "bad" then false else true
  txFetch := fun s => if s = "bad" then none else some ⟨7⟩
  insertOk := fun _ => true

/-- Environment in which every signature succeeds. -/
def sigOkEnv : Env where
  blockFetch := fun _ => some cBlock
  sigParse := fun _ => true
  txFetch := fun _ => some ⟨7⟩
  insertOk := fun _ => true

/-- Environment whose single-signature block carries an unparseable
signature. -/
def badOnlyEnv : Env where
  blockFetch := fun _ =>
    some { blockhash := "h0", block_time := some 5,
           signatures := some ["bad"] }
  sigParse := fun _ => false
  txFetch := fun _ => none
  insertOk := fun _ => false

/-- Environment in which only the block fetch for slot 4 fails. -/
def blockFailEnv : Env where
  blockFetch := fun s => if s = 4 then none else some cBlock
  sigParse := fun _ => true
  txFetch := fun _ => some ⟨7⟩
  insertOk := fun _ => true

/-- Environment in which every block fetch succeeds. -/
def blockOkEnv : Env where
  blockFetch := fun _ => some cBlock
  sigParse := fun _ => true
  txFetch := fun _ => some ⟨7⟩
  insertOk := fun _ => true

/-! ## C5 -/

/-- C5 counterexample: a block whose single signature does not parse.
`N = 1` and `txLimit = 1000`, so the claim demands exactly
`min 1 1000 = 1` transaction-detail requests, but the code issues
none (a detail request only happens after `Signature::from_str`
succeeds). -/
theorem c5_detail_count_counterexample :
    badOnlyEnv.blockFetch 0 =
      some { blockhash := "h0", block_time := some 5,
             signatures := some ["bad"] } ∧
    (slotDetailRequests badOnlyEnv 1000 0).length = 0 ∧
    min 1 1000 = 1 ∧ (0 : Nat) ≠ 1 :=
  ⟨rfl, rfl, by decide, by decide⟩

/-- C5 (amended): for a fetched block with signature list `sigs`, the
retained signatures are exactly the first `min (sigs.length) txLimit`
entries in provider order (`sigs.take txLimit`), and a
transaction-detail request is issued for precisely those retained
signatures that parse — at most, not always exactly,
`min (sigs.length) txLimit` requests. -/
theorem c5_truncation (env : Env) (txLimit slot : Nat)
    (block : UiConfirmedBlock) (sigs : List String)
    (hb : env.blockFetch slot = some block)
    (hs : block.signatures = some sigs) :
    retainedSignatures env txLimit slot = sigs.take txLimit ∧
    (retainedSignatures env txLimit slot).length =
      min sigs.length txLimit ∧
    slotDetailRequests env txLimit slot =
      (sigs.take txLimit).filter env.sigParse := by
  obtain ⟨bh, bt, sigs?⟩ := block
  change sigs? = some sigs at hs
  subst hs
  have hps : processSlot env txLimit slot =
      (sigs.take txLimit).map
        (processSignature env slot bh (Option.getD bt 0)) := by
    unfold processSlot
    rw [hb]
  refine ⟨?_, ?_, ?_⟩
  · unfold retainedSignatures
    rw [hps, map_sig_processSignature]
  · unfold retainedSignatures
    rw [hps, map_sig_processSignature]
    simp [List.length_take, Nat.min_comm]
  · unfold slotDetailRequests
    rw [hps, filterMap_detail_processSignature]

/-- Witness for C5 (amended) on the two-signature block `cBlock` with
`txLimit = 1`. -/
theorem c5_truncation_witness :
    retainedSignatures sigFailEnv 1 2 = ["bad", "good"].take 1 ∧
    (retainedSignatures sigFailEnv 1 2).length =
      min (["bad", "good"].length) 1 ∧
    slotDetailRequests sigFailEnv 1 2 =
      (["bad", "good"].take 1).filter sigFailEnv.sigParse :=
  c5_truncation sigFailEnv 1 2 cBlock ["bad", "good"] rfl rfl

/-! ## C6 -/

/-- C6: a failure confined to one signature's unit (parse failure,
detail-fetch failure, or insert failure) does not change any sibling
unit's outcome in the same block: position by position the two slot
traces carry the same signatures, and agree wherever the signature is
not the failing one. -/
theorem c6_signature_failure_isolated (env1 env2 : Env)
    (badSig : String)
    (hfail : env1.sigParse badSig = false ∨
      env1.txFetch badSig = none ∨ env1.insertOk badSig = false)
    (hb : env1.blockFetch = env2.blockFetch)
    (hp : ∀ s, s ≠ badSig → env1.sigParse s = env2.sigParse s)
    (ht : ∀ s, s ≠ badSig → env1.txFetch s = env2.txFetch s)
    (hi : ∀ s, s ≠ badSig → env1.insertOk s = env2.insertOk s)
    (txLimit slot : Nat) :
    List.Forall₂
      (fun o1 o2 => o1.sig = o2.sig ∧ (o1.sig ≠ badSig → o1 = o2))
      (processSlot env1 txLimit slot)
      (processSlot env2 txLimit slot) := by
  unfold processSlot
  rw [hb]
  cases env2.blockFetch slot with
  | none => exact List.Forall₂.nil
  | some block =>
    obtain ⟨bh, bt, sigs?⟩ := block
    cases sigs? with
    | none => exact List.Forall₂.nil
    | some sigs =>
      show List.Forall₂ _
        ((sigs.take txLimit).map
          (processSignature env1 slot bh (Option.getD bt 0)))
        ((sigs.take txLimit).map
          (processSignature env2 slot bh (Option.getD bt 0)))
      generalize sigs.take txLimit = l
      induction l with
      | nil => exact List.Forall₂.nil
      | cons a l ih =>
        simp only [List.map_cons]
        refine List.Forall₂.cons ⟨?_, ?_⟩ ih
        · rw [processSignature_sig, processSignature_sig]
        · intro hne
          rw [processSignature_sig] at hne
          exact processSignature_congr env1 env2 slot bh
            (Option.getD bt 0) a (hp a hne) (ht a hne) (hi a hne)

/-- Witness for C6: the signature "bad" fails in `sigFailEnv` but
every unit of `sigOkEnv` succeeds; the slot traces agree at "good". -/
theorem c6_signature_failure_isolated_witness :
    List.Forall₂
      (fun o1 o2 => o1.sig = o2.sig ∧ (o1.sig ≠ "bad" → o1 = o2))
      (processSlot sigFailEnv 5 3) (processSlot sigOkEnv 5 3) :=
  c6_signature_failure_isolated sigFailEnv sigOkEnv "bad"
    (Or.inl (by decide)) rfl
    (fun s h => by simp [sigFailEnv, sigOkEnv, h])
    (fun s h => by simp [sigFailEnv, sigOkEnv, h])
    (fun _ _ => rfl) 5 3

/-! ## C7 -/

/-- C7: a failed block fetch for slot `K` leaves slot `K` with no
unit outcomes at all (no detail requests, no inserts), while every
other slot of any backfill range is still attempted and processed
exactly as it would be were the fetch for `K` healthy. -/
theorem c7_block_failure_isolated (env1 env2 : Env) (K : Nat)
    (hfail : env1.blockFetch K = none)
    (hb : ∀ s, s ≠ K → env1.blockFetch s = env2.blockFetch s)
    (hp : env1.sigParse = env2.sigParse)
    (ht : env1.txFetch = env2.txFetch)
    (hi : env1.insertOk = env2.insertOk)
    (txLimit lo hiSlot : Nat) :
    processSlot env1 txLimit K = [] ∧
    slotDetailRequests env1 txLimit K = [] ∧
    slotInserts env1 txLimit K = [] ∧
    (fetch_range env1 txLimit lo hiSlot).map Prod.fst =
      (fetch_range env2 txLimit lo hiSlot).map Prod.fst ∧
    (∀ s, s ≠ K →
      processSlot env1 txLimit s = processSlot env2 txLimit s) := by
  have h0 : processSlot env1 txLimit K = [] := by
    unfold processSlot
    rw [hfail]
  refine ⟨h0, ?_, ?_, ?_, ?_⟩
  · unfold slotDetailRequests
    rw [h0]
    rfl
  · unfold slotInserts
    rw [h0]
    rfl
  · unfold fetch_range
    simp [List.map_map, Function.comp_def]
  · intro s hs
    exact processSlot_congr env1 env2 txLimit s (hb s hs) hp ht hi

/-- Witness for C7: slot 4's block fetch fails in `blockFailEnv` while
every fetch succeeds in `blockOkEnv`; the range `[3, 6]` attempts the
same slots in both. -/
theorem c7_block_failure_isolated_witness :
    processSlot blockFailEnv 5 4 = [] ∧
    slotDetailRequests blockFailEnv 5 4 = [] ∧
    slotInserts blockFailEnv 5 4 = [] ∧
    (fetch_range blockFailEnv 5 3 6).map Prod.fst =
      (fetch_range blockOkEnv 5 3 6).map Prod.fst ∧
    (∀ s, s ≠ 4 →
      processSlot blockFailEnv 5 s = processSlot blockOkEnv 5 s) :=
  c7_block_failure_isolated blockFailEnv blockOkEnv 4 rfl
    (fun s h => by simp [blockFailEnv, blockOkEnv, h])
    rfl rfl rfl 5 3 6

end Aggregator
